import Mathlib

/-!
# Verification of `src/methods/filterCourses.ts` (manaba-rush-enhanced)

A shallow embedding of the course-filtering module. JavaScript strings are
modelled as `String`/`List Char`; DOM course rows are modelled as a `Course`
structure (display style, class list, extracted schedule label); the page is a
`Page` with the two optional containers the code queries. Thrown string
exceptions are modelled by returning the (possibly partially mutated) page
together with an optional error string, since DOM mutations performed before a
throw persist.
-/

set_option autoImplicit false

namespace FilterCourses

/-- JavaScript `"x-y".split("-")` on a list of characters: split at every
occurrence of `'-'`, keeping empty pieces. The result is always nonempty. -/
def splitOnDash : List Char → List (List Char)
  | [] => [[]]
  | c :: rest =>
    let r := splitOnDash rest
    if c = '-' then [] :: r
    else
      match r with
      | [] => [[c]]
      | h :: t => (c :: h) :: t

/-- Embedding of `parseModuleCode` (filterCourses.ts lines 45-52):
`moduleCode.split("-")[0]` as the season and `moduleCode.split("-")[1]` as the
module segment. Index `[1]` may be `undefined` in JavaScript, modelled as
`Option`; index `[0]` always exists since `split` returns a nonempty array.
No validation is performed and nothing is ever thrown. -/
def parseModuleCode (moduleCode : String) : String × Option String :=
  let parts := (splitOnDash moduleCode.toList).map (fun l => String.mk l)
  (parts.headD "", parts.get? 1)

/-- Lower-casing of a string character by character, as JavaScript
`toLowerCase` acts on the ASCII segment-letter strings used here. -/
def toLowerStr (s : String) : String :=
  String.mk (s.toList.map Char.toLower)

/-- The character class `[春秋]` of the Japanese regex
`/^([春秋])([abc]+)/i`: it matches exactly one of the two season glyphs. -/
def isSeasonGlyph (c : Char) : Bool :=
  c = '春' || c = '秋'

/-- The character class `[abc]` under the `i` flag: one of `a`, `b`, `c` in
either case. -/
def isModuleLetter (c : Char) : Bool :=
  c.toLower = 'a' || c.toLower = 'b' || c.toLower = 'c'

/-- JavaScript regex `\s`: the ECMAScript WhiteSpace and LineTerminator
characters. -/
def isJsSpace (c : Char) : Bool :=
  c = ' ' || c = '\t' || c = '\n' || c = '\r' || c = '\x0b' || c = '\x0c' ||
  c = ' ' || c = ' ' || (' ' ≤ c && c ≤ ' ') ||
  c = ' ' || c = ' ' || c = ' ' || c = ' ' ||
  c = '　' || c = '﻿'

/-- JavaScript line terminators, the characters NOT matched by `.` in a regex
without the `s` flag. -/
def isLineTerm (c : Char) : Bool :=
  c = '\n' || c = '\r' || c = ' ' || c = ' '

/-- Greedy `[abc]+`-style run: the maximal leading run of module letters,
together with the remainder of the input. -/
def takeModuleRun : List Char → List Char × List Char
  | [] => ([], [])
  | c :: rest =>
    if isModuleLetter c then
      let (run, rem) := takeModuleRun rest
      (c :: run, rem)
    else ([], c :: rest)

/-- The anchored Japanese pattern `/^([春秋])([abc]+)/i` (filterCourses.ts
line 172): one season glyph followed by a nonempty greedy run of module
letters. Returns the two capture groups on success. -/
def jaMatch : List Char → Option (Char × List Char)
  | [] => none
  | c :: rest =>
    if isSeasonGlyph c then
      let run := (takeModuleRun rest).1
      if run.isEmpty then none else some (c, run)
    else none

/-- Case-insensitive literal word match at the start of the input, as the
alternation `(Spring|Autumn)` behaves under the `i` flag. On success returns
the actual characters consumed (the capture keeps the input's casing) and the
remainder. -/
def ciMatchWord : List Char → List Char → Option (List Char × List Char)
  | [], s => some ([], s)
  | _ :: _, [] => none
  | a :: w, c :: s =>
    if c.toLower = a.toLower then
      match ciMatchWord w s with
      | none => none
      | some (m, r) => some (c :: m, r)
    else none

/-- The anchored English pattern `/^(Spring|Autumn)\s([abc]+)/i`
(filterCourses.ts line 190): the season word (captured with the input's
casing), one whitespace character, then a nonempty greedy run of module
letters. -/
def enMatch (s : List Char) : Option (List Char × List Char) :=
  let afterSeason : Option (List Char × List Char) → Option (List Char × List Char) :=
    fun m =>
      match m with
      | none => none
      | some (seasonTok, rest) =>
        match rest with
        | [] => none
        | c :: rest' =>
          if isJsSpace c then
            let run := (takeModuleRun rest').1
            if run.isEmpty then none else some (seasonTok, run)
          else none
  match afterSeason (ciMatchWord "Spring".toList s) with
  | some r => some r
  | none => afterSeason (ciMatchWord "Autumn".toList s)

deriving instance DecidableEq for Except

/-- The parser's result record: `season` is the pair of membership booleans
and `module` the array of lower-cased single-letter strings
(`module.split("").map(toLowerCase)`). -/
structure CourseInfo where
  spring : Bool
  autumn : Bool
  module : List String
  deriving Repr, DecidableEq

/-- Embedding of `parseCourseInfoString` (filterCourses.ts lines 165-210).
`Except.error` models the thrown `"invalid lang"` string; `Except.ok none`
models the implicit `undefined` return when the active language's regex does
not match ("no match"); `Except.ok (some info)` is a successful parse.
For `"ja"` the captured season group is a single glyph, so
`season.includes("春")` is equality with `'春'`; for `"en"` season membership
uses JavaScript `===`, i.e. case-sensitive string equality with `"Spring"` /
`"Autumn"` although the match itself was case-insensitive. -/
def parseCourseInfoString (lang : String) (s : List Char) :
    Except String (Option CourseInfo) :=
  if lang = "ja" then
    .ok (match jaMatch s with
      | none => none
      | some (season, run) =>
        some { spring := season = '春'
               autumn := season = '秋'
               module := run.map (fun c => c.toLower.toString) })
  else if lang = "en" then
    .ok (match enMatch s with
      | none => none
      | some (seasonTok, run) =>
        some { spring := seasonTok = "Spring".toList
               autumn := seasonTok = "Autumn".toList
               module := run.map (fun c => c.toLower.toString) })
  else .error "invalid lang"

/-- A nonempty run of characters each matchable by `.` (anything but a line
terminator), as `.+` requires. -/
def dotPlus (l : List Char) : Bool :=
  !l.isEmpty && l.all (fun c => !isLineTerm c)

/-- The shape test `/^.+\s.+$/.test(courseInfoString)` (filterCourses.ts
line 263): the string splits as a nonempty line-terminator-free part, one
whitespace character, and another nonempty line-terminator-free part. A
backtracking regex test succeeds exactly when some such decomposition
exists. -/
def twoTokenCheck (s : List Char) : Bool :=
  (List.range s.length).any (fun i =>
    match s.get? i with
    | some c => isJsSpace c && dotPlus (s.take i) && dotPlus (s.drop (i + 1))
    | none => false)

/-- Model of one rendered course entry (the `HTMLElement` handle):
its `style.display` value, its `classList`, and the schedule label the code
extracts for it (`children[2].innerText` in list layout, the detail
sub-element's `title` in thumbnail layout, `""` when that element is
absent). -/
structure Course where
  display : String
  classes : List String
  label : List Char
  deriving Repr, DecidableEq

/-- The two recognized page layouts (`viewMode` in `applyFilter`). -/
inductive ViewMode where
  | list
  | thumbnail
  deriving Repr, DecidableEq

/-- Model of the page as `applyFilter` sees it: the children of
`.courselist tbody` when that container exists (header row included), and
the children of `.mycourses-body .section` when that one exists (trailing
footer node included). -/
structure Page where
  listContainer : Option (List Course)
  thumbnailContainer : Option (List Course)
  deriving Repr, DecidableEq

/-- DOM `classList.replace(old, new)`: replaces the token `old` by `new`
when present, otherwise leaves the class list unchanged. -/
def classListReplace (old new : String) (cs : List String) : List String :=
  if cs.contains old then cs.map (fun c => if c = old then new else c) else cs

/-- Embedding of `handleOddRow` (filterCourses.ts lines 214-221) together
with the `isOddRow` flag it closes over: swap the row class according to the
flag, then toggle the flag. -/
def handleOddRow (isOdd : Bool) (c : Course) : Course × Bool :=
  (if isOdd then { c with classes := classListReplace "row0" "row1" c.classes }
   else { c with classes := classListReplace "row1" "row0" c.classes },
   !isOdd)

/-- Embedding of `showCourse` (filterCourses.ts lines 223-230): in list
layout set `display` to `"table-row"` and run `handleOddRow`; in thumbnail
layout set `display` to `"block"` and leave the flag alone. -/
def showCourse (vm : ViewMode) (isOdd : Bool) (c : Course) : Course × Bool :=
  match vm with
  | .list => handleOddRow isOdd { c with display := "table-row" }
  | .thumbnail => ({ c with display := "block" }, isOdd)

/-- Embedding of `hideCourse` (filterCourses.ts lines 232-234). -/
def hideCourse (c : Course) : Course :=
  { c with display := "none" }

/-- `courseInfo.season[parsedModuleCode.season]`: JavaScript property access
with a computed key; any key other than `"spring"` / `"autumn"` reads
`undefined`, which is falsy. -/
def seasonMember (info : CourseInfo) (season : String) : Bool :=
  if season = "spring" then info.spring
  else if season = "autumn" then info.autumn
  else false

/-- `courseInfo.module.includes(parsedModuleCode.module)`: membership of the
(possibly `undefined`) decoded segment in the array of letter strings;
`includes(undefined)` is `false` on this array. -/
def moduleIncludes (letters : List String) (m : Option String) : Bool :=
  match m with
  | none => false
  | some s => letters.contains s

/-- The body of `applyFilter`'s per-course `forEach` for a concrete (non-all)
module code (filterCourses.ts lines 239-278), acting on one course and the
`isOddRow` flag. In list layout the course's `display` is first reset to
`"table-row"` (line 243). Then: if the label fails the shape test, the course
is shown; otherwise it is parsed, and the course is shown exactly when the
parse matched, its season membership contains the decoded season and its
segment list contains the decoded segment — in every other case (including
"no match") it is hidden. A thrown `"invalid lang"` from the parser is
surfaced in the last component, with the course left as already mutated. -/
def filterOne (lang : String) (vm : ViewMode) (season : String)
    (moduleSel : Option String) (isOdd : Bool) (c : Course) :
    (Course × Bool) × Option String :=
  let c := match vm with
    | .list => { c with display := "table-row" }
    | .thumbnail => c
  if twoTokenCheck c.label then
    match parseCourseInfoString lang c.label with
    | .error e => ((c, isOdd), some e)
    | .ok courseInfo =>
      let pass := match courseInfo with
        | some info => seasonMember info season && moduleIncludes info.module moduleSel
        | none => false
      if pass then (showCourse vm isOdd c, none)
      else ((hideCourse c, isOdd), none)
  else (showCourse vm isOdd c, none)

/-- The `forEach` loop of the concrete-code branch, with throw semantics: a
raised error stops processing, leaving later courses untouched, and is
propagated together with the courses as mutated so far. -/
def runFilter (lang : String) (vm : ViewMode) (season : String)
    (moduleSel : Option String) :
    List Course → Bool → List Course × Bool × Option String
  | [], isOdd => ([], isOdd, none)
  | c :: rest, isOdd =>
    match filterOne lang vm season moduleSel isOdd c with
    | ((c', isOdd'), some e) => (c' :: rest, isOdd', some e)
    | ((c', isOdd'), none) =>
      let (rest', isOdd'', err) := runFilter lang vm season moduleSel rest isOdd'
      (c' :: rest', isOdd'', err)

/-- The `forEach` loop of the `all` branch (filterCourses.ts lines 280-282):
show every course, threading the striping flag. -/
def showAll (vm : ViewMode) : List Course → Bool → List Course × Bool
  | [], isOdd => ([], isOdd)
  | c :: rest, isOdd =>
    let (c', isOdd') := showCourse vm isOdd c
    let (rest', isOdd'') := showAll vm rest isOdd'
    (c' :: rest', isOdd'')

/-- Embedding of `applyFilter` (filterCourses.ts lines 137-283). Layout
detection: the list container wins when present (its first child, the header
row, is removed by `shift()`); otherwise the thumbnail container (its last
child, the footer, is removed by `pop()`); otherwise `"invalid viewMode"` is
thrown with the page untouched. The `isOddRow` flag starts at `true`. The
result is the page with its processed container rewritten, plus the error
thrown during the pass, if any. -/
def applyFilter (lang : String) (moduleCode : String) (page : Page) :
    Page × Option String :=
  match page.listContainer with
  | some rows =>
    let header := rows.take 1
    let courses := rows.drop 1
    if moduleCode ≠ "all" then
      let pm := parseModuleCode moduleCode
      let (courses', _, err) := runFilter lang .list pm.1 pm.2 courses true
      ({ page with listContainer := some (header ++ courses') }, err)
    else
      let (courses', _) := showAll .list courses true
      ({ page with listContainer := some (header ++ courses') }, none)
  | none =>
    match page.thumbnailContainer with
    | some cells =>
      let courses := cells.dropLast
      let footer := cells.drop courses.length
      if moduleCode ≠ "all" then
        let pm := parseModuleCode moduleCode
        let (courses', _, err) := runFilter lang .thumbnail pm.1 pm.2 courses true
        ({ page with thumbnailContainer := some (courses' ++ footer) }, err)
      else
        let (courses', _) := showAll .thumbnail courses true
        ({ page with thumbnailContainer := some (courses' ++ footer) }, none)
    | none => (page, some "invalid viewMode")

/-- Modelled from the spec: the expected outcome of the `all` selector in
list layout — every course shown as a table row and the row classes fully
alternating in handle order, starting from the "odd" (`row1`) state. Used to
compare `applyFilter`'s actual result against the spec's description. -/
def alternatingShown : Bool → List Course → List Course
  | _, [] => []
  | isOdd, c :: rest =>
    { c with display := "table-row",
             classes := [if isOdd then "row1" else "row0"] }
      :: alternatingShown (!isOdd) rest

/-- Helper for `specTokenCount`: `inToken` records whether the previous
character belonged to a token. -/
def countTokensAux : Bool → List Char → Nat
  | _, [] => 0
  | inToken, c :: rest =>
    if isJsSpace c then countTokensAux false rest
    else (if inToken then 0 else 1) + countTokensAux true rest

/-- Modelled from the spec's vocabulary: the number of maximal
whitespace-separated tokens in a label, for stating the "has at least two
tokens" wording of the claims. -/
def specTokenCount (s : List Char) : Nat :=
  countTokensAux false s

/-! ## Theorems -/

/-- **C2.** The Japanese pattern `/^([春秋])([abc]+)/i` matches exactly one
leading season glyph, so the full-year label `"春秋ABC"` does not match at
all: the second character `秋` is not a module letter. The parser therefore
returns "no match" (`Except.ok none`), not a result with both seasons true
and segments `{a,b,c}` as the claim states. -/
theorem c2_full_year_label_no_match :
    parseCourseInfoString "ja" "春秋ABC".toList = .ok none := by decide

/-- **C3 (counterexample).** The claim says decoding the sentinel `"all"` is
rejected rather than returning a result. In the code `parseModuleCode` never
signals any error: on `"all"` it returns the season field `"all"` together
with an `undefined` (here `none`) module segment. -/
theorem c3_counterexample :
    parseModuleCode "all" = ("all", none) := by decide

/-- **C3 (amended).** `parseModuleCode` performs no validation and never
fails: it returns the text before the first `"-"` as the season and the
(possibly missing) text between the first and second `"-"` as the segment.
In particular `"all"` and arbitrary non-pattern strings are decoded without
rejection. -/
theorem c3_decode_never_fails :
    parseModuleCode "all" = ("all", none) ∧
    parseModuleCode "winter-x" = ("winter", some "x") ∧
    parseModuleCode "" = ("", none) ∧
    parseModuleCode "spring-a" = ("spring", some "a") := by decide

/-- **C8.** The English parser on `"Spring AB Mon. 2"` yields spring only
with segments `{a, b}`, and the Japanese parser on `"秋A 水5,6"` yields
autumn only with segment `{a}`; the trailing meeting-time text after the
anchored match is ignored. -/
theorem c8_parser_examples :
    parseCourseInfoString "en" "Spring AB Mon. 2".toList =
      .ok (some { spring := true, autumn := false, module := ["a", "b"] }) ∧
    parseCourseInfoString "ja" "秋A 水5,6".toList =
      .ok (some { spring := false, autumn := true, module := ["a"] }) := by
  decide

/-- **C9.** For each of the six concrete module codes, decoding with
`parseModuleCode` and re-encoding as season ++ `"-"` ++ lower-cased segment
yields the original string. -/
theorem c9_decode_encode_roundtrip :
    ((parseModuleCode "spring-a").1 ++ "-" ++
        toLowerStr ((parseModuleCode "spring-a").2.getD "") = "spring-a") ∧
    ((parseModuleCode "spring-b").1 ++ "-" ++
        toLowerStr ((parseModuleCode "spring-b").2.getD "") = "spring-b") ∧
    ((parseModuleCode "spring-c").1 ++ "-" ++
        toLowerStr ((parseModuleCode "spring-c").2.getD "") = "spring-c") ∧
    ((parseModuleCode "autumn-a").1 ++ "-" ++
        toLowerStr ((parseModuleCode "autumn-a").2.getD "") = "autumn-a") ∧
    ((parseModuleCode "autumn-b").1 ++ "-" ++
        toLowerStr ((parseModuleCode "autumn-b").2.getD "") = "autumn-b") ∧
    ((parseModuleCode "autumn-c").1 ++ "-" ++
        toLowerStr ((parseModuleCode "autumn-c").2.getD "") = "autumn-c") := by
  decide

/-- **C1 (counterexample).** The claim says an entry whose label passes the
two-token shape check but yields "no match" from the parser is force-shown,
never hidden. On the page holding one course labelled `"Hello World"` (two
tokens, no match for the English pattern) with selector `spring-a`, the
course ends hidden (`display = "none"`). -/
theorem c1_counterexample :
    applyFilter "en" "spring-a"
      { listContainer := some
          [{ display := "", classes := [], label := [] },
           { display := "", classes := ["row0"], label := "Hello World".toList }],
        thumbnailContainer := none } =
      ({ listContainer := some
          [{ display := "", classes := [], label := [] },
           { display := "none", classes := ["row0"], label := "Hello World".toList }],
         thumbnailContainer := none }, none) := by decide

/-- **C1 (amended).** Under a concrete selector, an entry whose label passes
the two-token shape check but for which the parser signals "no match" is
hidden, not force-shown: the `undefined` parse result falls into the same
else-branch as a failed membership test. Only entries failing the shape
check are force-shown. -/
theorem c1_two_token_no_match_hidden (lang : String) (vm : ViewMode)
    (season : String) (moduleSel : Option String) (isOdd : Bool) (c : Course)
    (h1 : twoTokenCheck c.label = true)
    (h2 : parseCourseInfoString lang c.label = .ok none) :
    filterOne lang vm season moduleSel isOdd c =
      (({ c with display := "none" }, isOdd), none) := by
  cases vm <;> simp [filterOne, hideCourse, h1, h2]

/-- Witness for `c1_two_token_no_match_hidden` at the Japanese non-matching
two-token label `"あ い"`. -/
theorem c1_two_token_no_match_hidden_witness :
    filterOne "ja" .list "spring" (some "a") true
      { display := "", classes := ["row0"], label := "あ い".toList } =
      (({ display := "none", classes := ["row0"], label := "あ い".toList },
        true), none) :=
  c1_two_token_no_match_hidden "ja" .list "spring" (some "a") true
    { display := "", classes := ["row0"], label := "あ い".toList }
    (by decide) (by decide)

/-- **C6.** When neither the list container nor the thumbnail container is
present, `applyFilter` fails with the `"invalid viewMode"` condition and the
page is returned untouched: no entry's visibility or row class is mutated. -/
theorem c6_unrecognized_layout (lang moduleCode : String) (page : Page)
    (h1 : page.listContainer = none) (h2 : page.thumbnailContainer = none) :
    applyFilter lang moduleCode page = (page, some "invalid viewMode") := by
  simp [applyFilter, h1, h2]

/-- Witness for `c6_unrecognized_layout` on the empty page. -/
theorem c6_unrecognized_layout_witness :
    applyFilter "en" "spring-a"
        { listContainer := none, thumbnailContainer := none } =
      ({ listContainer := none, thumbnailContainer := none },
       some "invalid viewMode") :=
  c6_unrecognized_layout "en" "spring-a"
    { listContainer := none, thumbnailContainer := none } rfl rfl

/-- For any language other than `"ja"` and `"en"` the parser throws
`"invalid lang"`. -/
theorem parseCourseInfoString_invalid_lang (lang : String) (s : List Char)
    (h1 : lang ≠ "ja") (h2 : lang ≠ "en") :
    parseCourseInfoString lang s = .error "invalid lang" := by
  simp [parseCourseInfoString, h1, h2]

/-- **C4 (counterexample).** The claim says that under an unsupported
language no entry's visibility or row class is mutated before the failure
propagates. On a list page with two courses (both initially hidden), the
first course (single-token label `"solo"`) is force-shown and striped, and
the second course's display is pre-set to `"table-row"`, before the pass
throws `"invalid lang"` on reaching the parser — so partial filtering has
already happened. -/
theorem c4_counterexample :
    applyFilter "de" "spring-a"
      { listContainer := some
          [{ display := "", classes := [], label := [] },
           { display := "none", classes := ["row0"], label := "solo".toList },
           { display := "none", classes := ["row1"], label := "a b".toList }],
        thumbnailContainer := none } =
      ({ listContainer := some
          [{ display := "", classes := [], label := [] },
           { display := "table-row", classes := ["row1"], label := "solo".toList },
           { display := "table-row", classes := ["row1"], label := "a b".toList }],
         thumbnailContainer := none }, some "invalid lang") := by decide

/-- **C4 (amended).** Under a concrete selector and an unsupported display
language, the pass throws `"invalid lang"` — a condition distinct from the
parser's "no match" result and from `"invalid viewMode"` — when it reaches
the first entry whose label passes the two-token shape check; it is not a
per-entry condition but aborts the whole pass there. Entries examined before
that point have, however, already been mutated: in list layout the display of
each examined entry is pre-set to `"table-row"` before the parser runs. For a
list page whose first course passes the shape check, the result is exactly
the input page with that course's display set to `"table-row"`, all later
entries untouched. -/
theorem c4_unsupported_language (lang moduleCode : String) (page : Page)
    (hd c : Course) (rest : List Course)
    (hja : lang ≠ "ja") (hen : lang ≠ "en") (hmc : moduleCode ≠ "all")
    (hpage : page.listContainer = some (hd :: c :: rest))
    (hlabel : twoTokenCheck c.label = true) :
    applyFilter lang moduleCode page =
      ({ page with
           listContainer := some (hd :: { c with display := "table-row" } :: rest) },
       some "invalid lang") := by
  simp [applyFilter, hpage, hmc, runFilter, filterOne, hlabel,
        parseCourseInfoString_invalid_lang lang _ hja hen]

/-- Witness for `c4_unsupported_language` at a German page with one matching
course. -/
theorem c4_unsupported_language_witness :
    applyFilter "de" "spring-a"
      { listContainer := some
          [{ display := "", classes := [], label := [] },
           { display := "none", classes := ["row0"], label := "a b".toList }],
        thumbnailContainer := none } =
      ({ listContainer := some
          [{ display := "", classes := [], label := [] },
           { display := "table-row", classes := ["row0"], label := "a b".toList }],
         thumbnailContainer := none }, some "invalid lang") :=
  c4_unsupported_language "de" "spring-a"
    { listContainer := some
        [{ display := "", classes := [], label := [] },
         { display := "none", classes := ["row0"], label := "a b".toList }],
      thumbnailContainer := none }
    { display := "", classes := [], label := [] }
    { display := "none", classes := ["row0"], label := "a b".toList }
    [] (by decide) (by decide) (by decide) rfl (by decide)

/-- **C7 (counterexample).** The claim says every entry whose label has
fewer than two whitespace-separated tokens is force-shown. A label of three
spaces has zero tokens, yet it passes the shape test `/^.+\s.+$/` (`.`
matches a space), reaches the parser, fails to match, and the entry is
hidden — not force-shown. -/
theorem c7_counterexample :
    specTokenCount "   ".toList = 0 ∧
    twoTokenCheck "   ".toList = true ∧
    applyFilter "en" "spring-a"
      { listContainer := some
          [{ display := "", classes := [], label := [] },
           { display := "", classes := ["row0"], label := "   ".toList }],
        thumbnailContainer := none } =
      ({ listContainer := some
          [{ display := "", classes := [], label := [] },
           { display := "none", classes := ["row0"], label := "   ".toList }],
         thumbnailContainer := none }, none) := by decide

/-- **C7 (amended).** The force-show rule is governed by the shape test
`/^.+\s.+$/`, not by token counting: a label containing no whitespace at all
always fails the test, and every entry whose label fails the test is shown
by its `filterOne` step regardless of language and selector, without the
parser being consulted (its result and the absence of an error do not depend
on the language). A label can have fewer than two tokens yet pass the test
(e.g. whitespace-only labels) and is then parsed normally. -/
theorem c7_shape_check_fail_force_shown :
    (∀ s : List Char, s.all (fun ch => !isJsSpace ch) = true →
      twoTokenCheck s = false) ∧
    (∀ (lang : String) (vm : ViewMode) (season : String)
        (moduleSel : Option String) (isOdd : Bool) (c : Course),
      twoTokenCheck c.label = false →
      filterOne lang vm season moduleSel isOdd c = (showCourse vm isOdd c, none)) := by
  constructor
  · intro s hs
    rw [twoTokenCheck, List.any_eq_false]
    intro i hi
    simp only [List.mem_range] at hi
    cases hg : s.get? i with
    | none => simp [hg]
    | some ch =>
      have hmem : ch ∈ s := List.get?_mem hg
      have hsp : isJsSpace ch = false := by
        have := List.all_eq_true.mp hs ch hmem
        simpa using this
      simp [hg, hsp]
  · intro lang vm season moduleSel isOdd c h
    cases vm <;> simp [filterOne, showCourse, h]

/-- Witness for `c7_shape_check_fail_force_shown`: the no-whitespace label
`"solo"` fails the shape test, and the corresponding thumbnail entry is
shown even under an unsupported language. -/
theorem c7_shape_check_fail_force_shown_witness :
    twoTokenCheck "solo".toList = false ∧
    filterOne "de" .thumbnail "spring" (some "a") true
        { display := "", classes := [], label := "solo".toList } =
      (showCourse .thumbnail true
        { display := "", classes := [], label := "solo".toList }, none) :=
  ⟨c7_shape_check_fail_force_shown.1 "solo".toList (by decide),
   c7_shape_check_fail_force_shown.2 "de" .thumbnail "spring" (some "a") true
     { display := "", classes := [], label := "solo".toList } (by decide)⟩

/-- **C10 (counterexample).** The claim says every label whose leading
season word is wrongly cased parses with both season flags false and is
hidden under every concrete selector. The label `"spring ab\n"` matches the
English pattern case-insensitively with captured season `"spring"` (not
`"Spring"`/`"Autumn"`), parses with both flags false — yet its entry is
shown under the `spring-a` selector, because the trailing line terminator
makes the label fail the `/^.+\s.+$/` shape test, which force-shows it
before the parser's verdict is consulted. -/
theorem c10_counterexample :
    enMatch "spring ab\n".toList = some ("spring".toList, ['a', 'b']) ∧
    parseCourseInfoString "en" "spring ab\n".toList =
      .ok (some { spring := false, autumn := false, module := ["a", "b"] }) ∧
    (filterOne "en" .list "spring" (some "a") true
        { display := "", classes := ["row0"],
          label := "spring ab\n".toList }).1.1.display = "table-row" := by
  decide

/-- **C10 (amended).** For language `"en"`, when the pattern matches with a
captured season word that is neither exactly `"Spring"` nor exactly
`"Autumn"` (any other casing), the parse succeeds with both season flags
false; and provided the label also passes the two-token shape test, the
entry is hidden under every concrete (season, segment) selector. -/
theorem c10_wrong_case_both_false_hidden (c : Course) (vm : ViewMode)
    (season : String) (moduleSel : Option String) (isOdd : Bool)
    (tok run : List Char)
    (hm : enMatch c.label = some (tok, run))
    (hsp : tok ≠ "Spring".toList) (hau : tok ≠ "Autumn".toList)
    (ht : twoTokenCheck c.label = true) :
    parseCourseInfoString "en" c.label =
      .ok (some { spring := false, autumn := false,
                  module := run.map (fun ch => ch.toLower.toString) }) ∧
    filterOne "en" vm season moduleSel isOdd c =
      (({ c with display := "none" }, isOdd), none) := by
  have hp : parseCourseInfoString "en" c.label =
      .ok (some { spring := false, autumn := false,
                  module := run.map (fun ch => ch.toLower.toString) }) := by
    have hsp' : ¬tok = ['S', 'p', 'r', 'i', 'n', 'g'] := hsp
    have hau' : ¬tok = ['A', 'u', 't', 'u', 'm', 'n'] := hau
    simp [parseCourseInfoString, hm, hsp', hau']
  refine ⟨hp, ?_⟩
  cases vm <;>
    simp [filterOne, ht, hp, hideCourse, seasonMember, moduleIncludes]

/-- Witness for `c10_wrong_case_both_false_hidden` at the all-caps label
`"AUTUMN A 10:00"` in list layout under the `spring-a` selector. -/
theorem c10_wrong_case_both_false_hidden_witness :
    parseCourseInfoString "en" "AUTUMN A 10:00".toList =
      .ok (some { spring := false, autumn := false, module := ["a"] }) ∧
    filterOne "en" .list "spring" (some "a") true
        { display := "", classes := ["row0"], label := "AUTUMN A 10:00".toList } =
      (({ display := "none", classes := ["row0"],
          label := "AUTUMN A 10:00".toList }, true), none) :=
  c10_wrong_case_both_false_hidden
    { display := "", classes := ["row0"], label := "AUTUMN A 10:00".toList }
    .list "spring" (some "a") true "AUTUMN".toList ['A']
    (by decide) (by decide) (by decide) (by decide)

/-- `handleOddRow` in the odd state: swap `row0` for `row1`, flag becomes
even. -/
theorem handleOddRow_true (c : Course) :
    handleOddRow true c =
      ({ c with classes := classListReplace "row0" "row1" c.classes }, false) := rfl

/-- `handleOddRow` in the even state: swap `row1` for `row0`, flag becomes
odd. -/
theorem handleOddRow_false (c : Course) :
    handleOddRow false c =
      ({ c with classes := classListReplace "row1" "row0" c.classes }, true) := rfl

/-- In list layout, a `filterOne` step that does not throw leaves the course
either shown (`display = "table-row"`) with the striping flag toggled, or
hidden (`display = "none"`) with the striping flag untouched. -/
theorem filterOne_list_flag (lang season : String) (moduleSel : Option String)
    (isOdd : Bool) (c c' : Course) (odd' : Bool)
    (h : filterOne lang .list season moduleSel isOdd c = ((c', odd'), none)) :
    (c'.display = "table-row" ∧ odd' = !isOdd) ∨
    (c'.display = "none" ∧ odd' = isOdd) := by
  simp only [filterOne] at h
  by_cases h2 : twoTokenCheck c.label
  · simp only [h2, if_true] at h
    cases hp : parseCourseInfoString lang c.label with
    | error e => simp [hp] at h
    | ok info =>
      simp only [hp] at h
      cases info with
      | none =>
        simp only [Bool.false_eq_true, if_false, hideCourse, Prod.mk.injEq,
          and_true] at h
        obtain ⟨rfl, rfl⟩ := h
        exact Or.inr ⟨rfl, rfl⟩
      | some i =>
        by_cases hpass :
            (seasonMember i season && moduleIncludes i.module moduleSel) = true
        · simp only [hpass, if_true, showCourse] at h
          cases isOdd <;>
            simp only [handleOddRow_true, handleOddRow_false, Prod.mk.injEq,
              and_true] at h <;>
            obtain ⟨rfl, rfl⟩ := h <;> exact Or.inl ⟨rfl, rfl⟩
        · simp only [hpass, if_false, hideCourse, Prod.mk.injEq, and_true] at h
          obtain ⟨rfl, rfl⟩ := h
          exact Or.inr ⟨rfl, rfl⟩
  · simp only [h2, if_false, showCourse] at h
    cases isOdd <;>
      simp only [handleOddRow_true, handleOddRow_false, Prod.mk.injEq,
        and_true] at h <;>
      obtain ⟨rfl, rfl⟩ := h <;> exact Or.inl ⟨rfl, rfl⟩

/-- Over a whole non-throwing pass in list layout, the striping flag ends up
toggled once per entry made visible: it is the initial flag exactly when the
number of visible rows in the result is even. -/
theorem runFilter_list_parity (lang season : String) (moduleSel : Option String)
    (cs : List Course) (isOdd : Bool)
    (h : (runFilter lang .list season moduleSel cs isOdd).2.2 = none) :
    (runFilter lang .list season moduleSel cs isOdd).2.1 =
      (if (runFilter lang .list season moduleSel cs isOdd).1.countP
            (fun x => x.display == "table-row") % 2 = 1
       then !isOdd else isOdd) := by
  induction cs generalizing isOdd with
  | nil => simp [runFilter]
  | cons c rest ih =>
    rcases hf : filterOne lang .list season moduleSel isOdd c with ⟨⟨c', odd'⟩, err⟩
    rcases hr : runFilter lang .list season moduleSel rest odd' with
      ⟨rest', odd'', err2⟩
    cases err with
    | some e =>
      rw [runFilter, hf] at h
      simp at h
    | none =>
      have hrun : runFilter lang .list season moduleSel (c :: rest) isOdd =
          (c' :: rest', odd'', err2) := by
        rw [runFilter, hf]
        simp only [hr]
      rw [hrun] at h ⊢
      simp only at h
      have ihh := ih odd'
      rw [hr] at ihh
      simp only at ihh
      have ihh' := ihh h
      rcases filterOne_list_flag lang season moduleSel isOdd c c' odd' hf with
        ⟨hdisp, hodd⟩ | ⟨hdisp, hodd⟩
      · have hcnt : (c' :: rest').countP (fun x => x.display == "table-row") =
            rest'.countP (fun x => x.display == "table-row") + 1 := by
          rw [List.countP_cons_of_pos]
          simp [hdisp]
        rw [show ((c' :: rest', odd'', err2).2.1 : Bool) = odd'' from rfl,
            show ((c' :: rest', odd'', err2).1 : List Course) = c' :: rest' from rfl,
            hcnt]
        subst hodd
        rcases Nat.mod_two_eq_zero_or_one
            (rest'.countP (fun x => x.display == "table-row")) with hk | hk
        · rw [ihh', hk]
          have h1 : (rest'.countP (fun x => x.display == "table-row") + 1) % 2 = 1 := by
            omega
          simp [h1]
        · rw [ihh', hk]
          have h1 : (rest'.countP (fun x => x.display == "table-row") + 1) % 2 = 0 := by
            omega
          simp [h1]
      · have hcnt : (c' :: rest').countP (fun x => x.display == "table-row") =
            rest'.countP (fun x => x.display == "table-row") := by
          rw [List.countP_cons_of_neg]
          simp [hdisp]
        rw [show ((c' :: rest', odd'', err2).2.1 : Bool) = odd'' from rfl,
            show ((c' :: rest', odd'', err2).1 : List Course) = c' :: rest' from rfl,
            hcnt]
        subst hodd
        exact ihh'

/-- The `all`-branch loop in list layout produces exactly the alternating
sequence of shown rows, provided each row carries a single row class. -/
theorem showAll_list_alternating (courses : List Course) (isOdd : Bool)
    (h : ∀ c ∈ courses, c.classes = ["row0"] ∨ c.classes = ["row1"]) :
    (showAll .list courses isOdd).1 = alternatingShown isOdd courses := by
  induction courses generalizing isOdd with
  | nil => simp [showAll, alternatingShown]
  | cons c rest ih =>
    have hc := h c (List.mem_cons_self c rest)
    have hrest : ∀ x ∈ rest, x.classes = ["row0"] ∨ x.classes = ["row1"] :=
      fun x hx => h x (List.mem_cons_of_mem _ hx)
    have hrep0 : classListReplace "row0" "row1" c.classes = ["row1"] := by
      rcases hc with hc | hc <;> rw [hc] <;> decide
    have hrep1 : classListReplace "row1" "row0" c.classes = ["row0"] := by
      rcases hc with hc | hc <;> rw [hc] <;> decide
    cases isOdd <;>
      simp [showAll, alternatingShown, showCourse, handleOddRow_true,
        handleOddRow_false, hrep0, hrep1, ih _ hrest]

/-- The whole `all` pass on a list page: header untouched, every course
shown and restriped alternately starting odd, no error. -/
theorem applyFilter_all_list (lang : String) (page : Page) (hd : Course)
    (courses : List Course)
    (hpage : page.listContainer = some (hd :: courses))
    (h : ∀ c ∈ courses, c.classes = ["row0"] ∨ c.classes = ["row1"]) :
    applyFilter lang "all" page =
      ({ page with listContainer := some (hd :: alternatingShown true courses) },
       none) := by
  rw [applyFilter, hpage]
  simp [showAll_list_alternating courses true h]

/-- **C5.** The striping invariant. First conjunct: in list layout, any
non-throwing pass of the concrete-selector loop ends with the striping flag
equal to its initial value toggled once per entry made visible (hidden
entries never flip it) — in particular `applyFilter` starts every pass with
the flag in the "odd" (`true`) state. Second conjunct: under the `all`
selector on a list page whose courses each carry one row class, every entry
is shown and the rows receive the fully alternating class sequence starting
from the odd state (`row1` first) in handle order. -/
theorem c5_striping_invariant :
    (∀ (lang season : String) (moduleSel : Option String)
        (cs : List Course) (isOdd : Bool),
      (runFilter lang .list season moduleSel cs isOdd).2.2 = none →
      (runFilter lang .list season moduleSel cs isOdd).2.1 =
        (if (runFilter lang .list season moduleSel cs isOdd).1.countP
              (fun x => x.display == "table-row") % 2 = 1
         then !isOdd else isOdd)) ∧
    (∀ (lang : String) (page : Page) (hd : Course) (courses : List Course),
      page.listContainer = some (hd :: courses) →
      (∀ c ∈ courses, c.classes = ["row0"] ∨ c.classes = ["row1"]) →
      applyFilter lang "all" page =
        ({ page with listContainer := some (hd :: alternatingShown true courses) },
         none)) :=
  ⟨runFilter_list_parity, applyFilter_all_list⟩

/-- Witness for `c5_striping_invariant`: a concrete two-course list pass
under `spring-a` (one course shown, one hidden), and a concrete `all` pass
over three courses. -/
theorem c5_striping_invariant_witness :
    ((runFilter "ja" .list "spring" (some "a")
        [{ display := "", classes := ["row0"], label := "春A x".toList },
         { display := "", classes := ["row1"], label := "秋B x".toList }] true).2.1 =
      (if (runFilter "ja" .list "spring" (some "a")
            [{ display := "", classes := ["row0"], label := "春A x".toList },
             { display := "", classes := ["row1"], label := "秋B x".toList }]
            true).1.countP (fun x => x.display == "table-row") % 2 = 1
       then !true else true)) ∧
    applyFilter "en" "all"
      { listContainer := some
          [{ display := "", classes := [], label := [] },
           { display := "none", classes := ["row0"], label := "a".toList },
           { display := "none", classes := ["row1"], label := "b".toList },
           { display := "", classes := ["row0"], label := "c".toList }],
        thumbnailContainer := none } =
      ({ listContainer := some
          ({ display := "", classes := [], label := [] } ::
            alternatingShown true
              [{ display := "none", classes := ["row0"], label := "a".toList },
               { display := "none", classes := ["row1"], label := "b".toList },
               { display := "", classes := ["row0"], label := "c".toList }]),
         thumbnailContainer := none }, none) :=
  ⟨c5_striping_invariant.1 "ja" "spring" (some "a")
      [{ display := "", classes := ["row0"], label := "春A x".toList },
       { display := "", classes := ["row1"], label := "秋B x".toList }] true
      (by decide),
   c5_striping_invariant.2 "en"
      { listContainer := some
          [{ display := "", classes := [], label := [] },
           { display := "none", classes := ["row0"], label := "a".toList },
           { display := "none", classes := ["row1"], label := "b".toList },
           { display := "", classes := ["row0"], label := "c".toList }],
        thumbnailContainer := none }
      { display := "", classes := [], label := [] }
      [{ display := "none", classes := ["row0"], label := "a".toList },
       { display := "none", classes := ["row1"], label := "b".toList },
       { display := "", classes := ["row0"], label := "c".toList }]
      rfl (by decide)⟩

end FilterCourses
